import Mathlib

/-!
Shallow embedding of the Whatsapp-Bot server (`src/index.js`).

The embedding models:
* JavaScript string/truthiness primitives used by the code
  (`trim`, `toLowerCase`, `includes`, `||`, `filter(Boolean)`, `replace(/\D/g,'')`);
* the session lifecycle state (module variables `isReady`, `isAuthenticated`,
  `lastQR`, `client`, the persisted session directory, and the set of
  `setTimeout` recovery timers currently scheduled);
* the adapter event handlers wired in `wireClientEvents`;
* the HTTP route handlers (`GET /`, `GET /qr`, `POST /restart`, `POST /send`,
  `GET /contacts`, `POST /send-by-name`), each as a pure function of the
  session state, the parsed request and (where the route consults the adapter)
  the contact list returned by `client.getContacts()`; the adapter calls a
  handler issues are returned as an explicit effect list.
-/

/-- JavaScript truthiness of a value that is either a string or null/undefined:
`none` (null/undefined) and `some ""` (empty string) are falsy. -/
def truthy : Option String → Bool
  | none => false
  | some s => s != ""

/-- JavaScript `a || b` on string-or-null values: yields `a` when `a` is truthy,
otherwise `b` (even when `b` itself is falsy). -/
def jsOrO (a b : Option String) : Option String :=
  if truthy a then a else b

/-- Model of JavaScript `String.prototype.trim`: drop leading and trailing
whitespace characters. -/
def jsTrim (s : String) : String :=
  String.mk (((s.toList.dropWhile Char.isWhitespace).reverse.dropWhile Char.isWhitespace).reverse)

/-- Model of JavaScript `String.prototype.toLowerCase` (character-wise). -/
def jsLower (s : String) : String := String.mk (s.toList.map Char.toLower)

/-- Does `pat` occur at the head of `l`? Auxiliary for the substring test. -/
def subAt : List Char → List Char → Bool
  | [], _ => true
  | _ :: _, [] => false
  | a :: as, b :: bs => a == b && subAt as bs

/-- Does `pat` occur anywhere in `l`? Auxiliary for the substring test. -/
def subSearch (pat : List Char) : List Char → Bool
  | [] => subAt pat []
  | b :: bs => subAt pat (b :: bs) || subSearch pat bs

/-- Model of JavaScript `hay.includes(needle)`: substring occurrence test.
Every string includes the empty string. -/
def jsIncludes (hay needle : String) : Bool :=
  subSearch needle.toList hay.toList

/-- Model of `String(number).replace(/\D/g, '')`: keep only decimal digits. -/
def digitsOnly (s : String) : String := String.mk (s.toList.filter Char.isDigit)

/-- `toWhatsAppId` (src/index.js lines 142-148): strip non-digits from the
input (`String(number || '')`), return `null` when no digits remain, otherwise
append the `@c.us` suffix. -/
def toWhatsAppId (number : Option String) : Option String :=
  let digits := digitsOnly ((jsOrO number (some "")).getD "")
  if digits == "" then none else some (digits ++ "@c.us")

/-- A recovery action scheduled with `setTimeout`.  The three schedule sites in
src/index.js are distinguished because they act on different adapter objects:
* `rebuildClient` — `setTimeout(() => initializeClient(), d)` (LOGOUT branch):
  detaches the old listeners and constructs a **fresh** `Client` instance;
* `reinitSameClient g` — `setTimeout(() => c.initialize(), d)` (other-reason
  branch): re-initializes the **same** instance `c` (generation `g`) captured by
  the disconnected handler closure; no new adapter is constructed;
* `restartReinit` — `setTimeout(() => client.initialize(), d)` (`POST /restart`):
  re-initializes whatever the module-level `client` currently is; no new
  adapter is constructed. -/
inductive TimerTask where
  | rebuildClient (delayMs : Nat)
  | reinitSameClient (gen : Nat) (delayMs : Nat)
  | restartReinit (delayMs : Nat)
deriving DecidableEq, Repr

/-- The module-level mutable state of src/index.js: the `isReady`,
`isAuthenticated` and `lastQR` variables, the current `client` instance
(tracked by a generation counter, bumped each time `initializeClient` builds a
fresh `Client`), whether persisted session data exists under
`SESSION_PATH/whatsapp-web.js`, and the recovery timers currently scheduled. -/
structure SessionState where
  isReady : Bool
  isAuthenticated : Bool
  lastQR : Option String
  clientGen : Nat
  sessionDataPresent : Bool
  pendingTimers : List TimerTask
deriving DecidableEq, Repr

/-- State right after module load: `initializeClient()` has built client
generation 1, no QR yet, not ready, not authenticated, no timers; a persisted
session directory may exist from a previous run. -/
def initialState : SessionState :=
  { isReady := false
  , isAuthenticated := false
  , lastQR := none
  , clientGen := 1
  , sessionDataPresent := true
  , pendingTimers := [] }

/-- `clearSessionData` (src/index.js lines 63-73): remove the persisted
session/credential directory. -/
def clearSessionData (s : SessionState) : SessionState :=
  { s with sessionDataPresent := false }

/-- The `disconnected` handler (src/index.js lines 97-127).  It always clears
`isReady` and `isAuthenticated`; then:
* reason `LOGOUT`: `clearSessionData()`, destroy the client, clear `lastQR`,
  and schedule `initializeClient()` (a fresh adapter) after 3000 ms;
* reason `NAVIGATION` or `CONFLICT`: return without scheduling any recovery;
* any other reason: schedule `c.initialize()` on the same instance after
  5000 ms.  There is no guard: every such event schedules its own timer. -/
def onDisconnected (reason : String) (s : SessionState) : SessionState :=
  let s1 := { s with isReady := false, isAuthenticated := false }
  if reason == "LOGOUT" then
    let s2 := clearSessionData s1
    { s2 with lastQR := none
            , pendingTimers := s2.pendingTimers ++ [TimerTask.rebuildClient 3000] }
  else if reason == "NAVIGATION" || reason == "CONFLICT" then
    s1
  else
    { s1 with pendingTimers :=
        s1.pendingTimers ++ [TimerTask.reinitSameClient s.clientGen 5000] }

/-- Lifecycle events emitted by the adapter (`wireClientEvents`,
src/index.js lines 75-136). -/
inductive WAEvent where
  | qr (payload : String)
  | authenticated
  | authFailure
  | ready
  | disconnected (reason : String)
deriving DecidableEq, Repr

/-- Effect of one adapter event on the session state, per the handlers in
`wireClientEvents`.  Note the `ready` handler (lines 92-95) only sets
`isReady`; it does not touch `lastQR`. -/
def applyEvent (e : WAEvent) (s : SessionState) : SessionState :=
  match e with
  | .qr p => { s with lastQR := some p }
  | .authenticated => { s with isAuthenticated := true }
  | .authFailure => { s with isAuthenticated := false }
  | .ready => { s with isReady := true }
  | .disconnected r => onDisconnected r s

/-- Process a sequence of adapter events in order. -/
def applyEvents (es : List WAEvent) (s : SessionState) : SessionState :=
  es.foldl (fun st e => applyEvent e st) s

/-- Effect of a scheduled timer firing.  Only `rebuildClient`
(`initializeClient()`) constructs a fresh adapter instance (generation bump);
the two `initialize()`-in-place tasks construct no new adapter. -/
def runTask (t : TimerTask) (s : SessionState) : SessionState :=
  match t with
  | .rebuildClient _ => { s with clientGen := s.clientGen + 1 }
  | .reinitSameClient _ _ => s
  | .restartReinit _ => s

/-- Outbound calls a route handler issues to the adapter. -/
inductive AdapterCall where
  | destroy
  | getContacts
  | sendMessage (dest : String) (body : String)
deriving DecidableEq, Repr

/-- One disambiguation entry of the 300 `ambiguous` response body
(src/index.js lines 317-321). -/
structure CandInfo where
  jid : Option String
  number : Option String
  name : Option String
deriving DecidableEq, Repr

/-- The HTTP responses the modelled routes can produce, one constructor per
`res.status(...).json(...)` site. -/
inductive HttpResponse where
  | statusInfo (ready authenticated hasQR : Bool)
  | qrJson (qr : String)
  | qrNoContent
  | qrNotFound
  | restartOk
  | restartFailed
  | clientNotReady
  | badRequestSend
  | invalidNumber (number : Option String)
  | sendOk (dest : String)
  | contactsOk (count : Nat)
  | badRequestByName
  | noMatch
  | ambiguousChoice (cands : List CandInfo)
  | invalidContact
  | sendByNameOk (dest : String) (nm : Option String)
deriving DecidableEq, Repr

/-- HTTP status code attached to each response in src/index.js. -/
def httpStatus : HttpResponse → Nat
  | .statusInfo _ _ _ => 200
  | .qrJson _ => 200
  | .qrNoContent => 204
  | .qrNotFound => 404
  | .restartOk => 200
  | .restartFailed => 500
  | .clientNotReady => 503
  | .badRequestSend => 400
  | .invalidNumber _ => 400
  | .sendOk _ => 200
  | .contactsOk _ => 200
  | .badRequestByName => 400
  | .noMatch => 404
  | .ambiguousChoice _ => 300
  | .invalidContact => 500
  | .sendByNameOk _ _ => 200

/-- `GET /` (src/index.js lines 158-166). -/
def getStatus (s : SessionState) : HttpResponse :=
  .statusInfo s.isReady s.isAuthenticated (truthy s.lastQR && !s.isReady)

/-- `GET /qr` (src/index.js lines 182-186): 204 once ready, 404 while no QR is
stored, otherwise 200 with the stored payload. -/
def getQr (s : SessionState) : HttpResponse :=
  if s.isReady then .qrNoContent
  else if truthy s.lastQR then .qrJson (s.lastQR.getD "") else .qrNotFound

/-- `POST /restart` (src/index.js lines 199-213).  The flags and `lastQR` are
reset first; then `client.destroy()` is called (the only statement in the try
block that can throw, modelled by `destroyThrows`); on success a
`client.initialize()` timer is scheduled after 2000 ms and 200 is returned; a
throw is caught and answered with 500 `restart_failed`, leaving the flags
already reset and no timer scheduled. -/
def postRestart (destroyThrows : Bool) (s : SessionState) :
    SessionState × HttpResponse × List AdapterCall :=
  let s1 := { s with isReady := false, isAuthenticated := false, lastQR := none }
  if destroyThrows then (s1, .restartFailed, [AdapterCall.destroy])
  else ({ s1 with pendingTimers := s1.pendingTimers ++ [TimerTask.restartReinit 2000] },
        .restartOk, [AdapterCall.destroy])

/-- Parsed body of `POST /send`: each field is a string or absent. -/
structure SendRequest where
  number : Option String
  jid : Option String
  message : Option String
deriving DecidableEq, Repr

/-- `POST /send` (src/index.js lines 216-250) up to the point where the message
is handed to the adapter: readiness gate, required-field check
(`!message || (!number && !jid)` with JavaScript truthiness), then
`to = jid || toWhatsAppId(number)` and the `!to` invalid-number check.
The `sendMessage` adapter call is returned as an effect. -/
def postSend (s : SessionState) (req : SendRequest) :
    HttpResponse × List AdapterCall :=
  if !s.isReady then (.clientNotReady, [])
  else if !(truthy req.message) || (!(truthy req.number) && !(truthy req.jid)) then
    (.badRequestSend, [])
  else
    match jsOrO req.jid (toWhatsAppId req.number) with
    | none => (.invalidNumber req.number, [])
    | some t => (.sendOk t, [AdapterCall.sendMessage t (req.message.getD "")])

/-- A contact object as returned by the adapter's `getContacts()`, restricted
to the fields src/index.js reads.  String-valued fields may be absent
(null/undefined) — the code guards them with `?.`, `|| `, and
`filter(Boolean)`. -/
structure Contact where
  idSerialized : Option String
  idUser : Option String
  number : Option String
  name : Option String
  pushname : Option String
  shortName : Option String
  isMyContact : Bool
  isWAContact : Bool
  isEnterprise : Bool
  isGroup : Bool
deriving DecidableEq, Repr

/-- JavaScript `array.filter(Boolean)` over string-or-null entries: keep only
non-null, non-empty strings. -/
def jsCompact (l : List (Option String)) : List String :=
  l.filterMap (fun o => match o with
    | none => none
    | some v => if v == "" then none else some v)

/-- Mapped `number` field used by `GET /contacts`: `c.number || c.id?.user`. -/
def mappedNumber (c : Contact) : Option String := jsOrO c.number c.idUser

/-- `GET /contacts` (src/index.js lines 253-283): readiness gate, fetch
contacts, keep `isMyContact || isEnterprise || isWAContact`, and when the
query string is non-empty keep only contacts one of whose present fields
(name, pushname, shortName, mapped number) contains the trimmed lowercased
query.  The response carries the result count. -/
def getContactsRoute (s : SessionState) (rawQuery : Option String)
    (contacts : List Contact) : HttpResponse × List AdapterCall :=
  if !s.isReady then (.clientNotReady, [])
  else
    let query := jsLower (jsTrim ((jsOrO rawQuery (some "")).getD ""))
    let mapped := contacts.filter (fun c => c.isMyContact || c.isEnterprise || c.isWAContact)
    let results :=
      if query == "" then mapped
      else mapped.filter (fun c =>
        (jsCompact [c.name, c.pushname, c.shortName, mappedNumber c]).any
          (fun v => jsIncludes (jsLower v) query))
    (.contactsOk results.length, [AdapterCall.getContacts])

/-- The five fields scored by `POST /send-by-name`
(`[c.name, c.pushname, c.shortName, c.number, c.id?.user]`). -/
def scoreFields (c : Contact) : List (Option String) :=
  [c.name, c.pushname, c.shortName, c.number, c.idUser]

/-- The score of one contact against the lowercased query `q`
(src/index.js lines 299-301): over the present fields, `+1` for each whose
lowercasing contains `q`. -/
def contactScore (q : String) (c : Contact) : Nat :=
  (jsCompact (scoreFields c)).foldl
    (fun acc v => if jsIncludes (jsLower v) q then acc + 1 else acc) 0

/-- A scored match candidate (`{ contact, score }`). -/
structure Cand where
  contact : Contact
  score : Nat
deriving DecidableEq, Repr

/-- The JavaScript sort comparator `(a, b) => b.score - a.score` as a Boolean
relation: `a` may come before `b` iff `b.score ≤ a.score` (descending). -/
def candLE (a b : Cand) : Bool := decide (b.score ≤ a.score)

/-- Candidate list before sorting (src/index.js lines 295-303): keep
`(isMyContact || isWAContact) && !isGroup`, score each contact, and drop
score-0 entries. -/
def candidatesFor (q : String) (cs : List Contact) : List Cand :=
  ((cs.filter (fun c => (c.isMyContact || c.isWAContact) && !c.isGroup)).map
      (fun c => Cand.mk c (contactScore q c))).filter
    (fun x => decide (0 < x.score))

/-- Stable insertion of a candidate into a list sorted by descending score:
`x` is placed before the first element it need not follow, so elements already
in the list that tie with `x` stay ahead of it only when they came first —
matching the stability JavaScript guarantees for `Array.prototype.sort`. -/
def insertDesc (x : Cand) : List Cand → List Cand
  | [] => [x]
  | y :: ys => if candLE x y then x :: y :: ys else y :: insertDesc x ys

/-- Stable sort by descending score (insertion sort). -/
def stableSortDesc : List Cand → List Cand
  | [] => []
  | x :: xs => insertDesc x (stableSortDesc xs)

/-- The sorted candidate list (src/index.js line 304): the stable sort by
descending score performed by JavaScript `Array.prototype.sort` with the
comparator above. -/
def sortedCandidates (q : String) (cs : List Contact) : List Cand :=
  stableSortDesc (candidatesFor q cs)

/-- One entry of the ambiguous-response candidate list (src/index.js
lines 317-321). -/
def candInfo (c : Contact) : CandInfo :=
  { jid := c.idSerialized
  , number := jsOrO c.number c.idUser
  , name := jsOrO c.name (jsOrO c.pushname (jsOrO c.shortName none)) }

/-- Outcome of the name-resolution portion of `POST /send-by-name`. -/
inductive ResolveOutcome where
  | noMatch
  | ambiguous (cands : List CandInfo)
  | invalidContact
  | sendTo (jid : String) (nm : Option String)
deriving DecidableEq, Repr

/-- The resolution logic of `POST /send-by-name` (src/index.js lines 294-329)
after the readiness and validation gates: no candidates → 404 `no_match`;
several candidates tie for `candidates[0].score` → 300 `ambiguous` listing the
first 10 tied candidates; otherwise the sole top candidate is chosen and, if
its `id?._serialized` is truthy, the message goes to that address (an absent
serialized id yields 500 `invalid_contact`). -/
def resolveByName (q : String) (cs : List Contact) : ResolveOutcome :=
  match sortedCandidates q cs with
  | [] => .noMatch
  | c0 :: rest =>
    let top := (c0 :: rest).filter (fun c => c.score == c0.score)
    if 1 < top.length then
      .ambiguous ((top.take 10).map (fun x => candInfo x.contact))
    else
      if truthy c0.contact.idSerialized then
        .sendTo (c0.contact.idSerialized.getD "")
          (jsOrO c0.contact.name (jsOrO c0.contact.pushname (jsOrO c0.contact.shortName none)))
      else .invalidContact

/-- `POST /send-by-name` (src/index.js lines 286-333): readiness gate, the
`!name || !message` validation, `q = String(name).trim().toLowerCase()`, fetch
contacts, then the resolution above; a successful resolution issues the
`sendMessage` call. -/
def postSendByName (s : SessionState) (nameField messageField : Option String)
    (contacts : List Contact) : HttpResponse × List AdapterCall :=
  if !s.isReady then (.clientNotReady, [])
  else if !(truthy nameField) || !(truthy messageField) then (.badRequestByName, [])
  else
    let q := jsLower (jsTrim (nameField.getD ""))
    match resolveByName q contacts with
    | .noMatch => (.noMatch, [AdapterCall.getContacts])
    | .ambiguous l => (.ambiguousChoice l, [AdapterCall.getContacts])
    | .invalidContact => (.invalidContact, [AdapterCall.getContacts])
    | .sendTo j nm =>
        (.sendByNameOk j nm,
         [AdapterCall.getContacts, AdapterCall.sendMessage j (messageField.getD "")])

/-- Maximum score over a candidate list (0 for the empty list); used to state
the specification's step 5 independently of the sorting done by the code. -/
def maxScore : List Cand → Nat
  | [] => 0
  | x :: xs => max x.score (maxScore xs)

/-- Session state after the `ready` event has fired on a fresh session. -/
def readyState : SessionState := { initialState with isReady := true }

/-- Test vector: a personally-known, non-group contact none of whose five
scoring fields is present. -/
def bareContact : Contact :=
  { idSerialized := some "999000111@c.us"
  , idUser := none
  , number := none
  , name := none
  , pushname := none
  , shortName := none
  , isMyContact := true
  , isWAContact := false
  , isEnterprise := false
  , isGroup := false }

/-- Test vector: a personally-known contact whose only present scoring field is
the display name. -/
def johnContact : Contact :=
  { idSerialized := some "15550001111@c.us"
  , idUser := some "15550001111"
  , number := none
  , name := some "John Smith"
  , pushname := none
  , shortName := none
  , isMyContact := true
  , isWAContact := false
  , isEnterprise := false
  , isGroup := false }

/-! ## Helper lemmas about the disconnect handler -/

/-- On a `LOGOUT` disconnect the handler purges the persisted session data and
`lastQR`, clears both flags, and appends a fresh-adapter rebuild timer. -/
lemma onDisconnected_logout_eq (s : SessionState) :
    onDisconnected "LOGOUT" s =
      { s with isReady := false, isAuthenticated := false, lastQR := none,
               sessionDataPresent := false,
               pendingTimers := s.pendingTimers ++ [TimerTask.rebuildClient 3000] } := by
  simp [onDisconnected, clearSessionData]

/-- On a `NAVIGATION` or `CONFLICT` disconnect the handler only clears the two
flags. -/
lemma onDisconnected_nav_eq (r : String) (s : SessionState)
    (h : r = "NAVIGATION" ∨ r = "CONFLICT") :
    onDisconnected r s = { s with isReady := false, isAuthenticated := false } := by
  rcases h with h | h <;> subst h <;> simp [onDisconnected]

/-- On any other disconnect reason the handler clears the two flags and appends
a same-instance reinitialize timer; nothing guards against appending several. -/
lemma onDisconnected_other_eq (r : String) (s : SessionState)
    (h1 : r ≠ "LOGOUT") (h2 : r ≠ "NAVIGATION") (h3 : r ≠ "CONFLICT") :
    onDisconnected r s =
      { s with isReady := false, isAuthenticated := false,
               pendingTimers := s.pendingTimers ++ [TimerTask.reinitSameClient s.clientGen 5000] } := by
  simp [onDisconnected, h1, h2, h3]

/-- Unfolding `applyEvents` over a cons cell. -/
lemma applyEvents_cons (e : WAEvent) (es : List WAEvent) (s : SessionState) :
    applyEvents (e :: es) s = applyEvents es (applyEvent e s) := rfl

/-! ## C1 -/

/-- C1: every disconnect event clears `ready` and `authenticated`; on reason
LOGOUT the persisted session state is purged and `lastQR` cleared in the
handler itself — before the fresh adapter exists (`clientGen` is unchanged
until the scheduled 3 s rebuild timer fires, and firing it is what creates the
fresh adapter) — and a 3 s fresh-adapter rebuild is scheduled; on NAVIGATION or
CONFLICT nothing further happens (no recovery is scheduled); on any other
reason a single 5 s reinitialize of the same adapter instance is scheduled. -/
theorem claim1_disconnect_policy (r : String) (s : SessionState) :
    ((onDisconnected r s).isReady = false ∧ (onDisconnected r s).isAuthenticated = false) ∧
    (r = "LOGOUT" →
       (onDisconnected r s).sessionDataPresent = false ∧
       (onDisconnected r s).lastQR = none ∧
       (onDisconnected r s).pendingTimers = s.pendingTimers ++ [TimerTask.rebuildClient 3000] ∧
       (onDisconnected r s).clientGen = s.clientGen ∧
       (runTask (TimerTask.rebuildClient 3000) (onDisconnected r s)).clientGen = s.clientGen + 1) ∧
    ((r = "NAVIGATION" ∨ r = "CONFLICT") →
       onDisconnected r s = { s with isReady := false, isAuthenticated := false }) ∧
    ((r ≠ "LOGOUT" ∧ r ≠ "NAVIGATION" ∧ r ≠ "CONFLICT") →
       onDisconnected r s =
         { s with isReady := false, isAuthenticated := false,
                  pendingTimers := s.pendingTimers ++ [TimerTask.reinitSameClient s.clientGen 5000] }) := by
  refine ⟨?_, ?_, ?_, ?_⟩
  · by_cases h1 : r = "LOGOUT"
    · subst h1; rw [onDisconnected_logout_eq]; exact ⟨rfl, rfl⟩
    · by_cases h2 : r = "NAVIGATION" ∨ r = "CONFLICT"
      · rw [onDisconnected_nav_eq r s h2]; exact ⟨rfl, rfl⟩
      · push_neg at h2
        rw [onDisconnected_other_eq r s h1 h2.1 h2.2]; exact ⟨rfl, rfl⟩
  · intro h1; subst h1; rw [onDisconnected_logout_eq]
    exact ⟨rfl, rfl, rfl, rfl, rfl⟩
  · intro h2; rw [onDisconnected_nav_eq r s h2]
  · intro ⟨h1, h2, h3⟩; rw [onDisconnected_other_eq r s h1 h2 h3]

/-- C1 witness: the theorem instantiated at reason `LOGOUT` and the initial
state. -/
theorem claim1_disconnect_policy_witness :
    (onDisconnected "LOGOUT" initialState).sessionDataPresent = false ∧
    (onDisconnected "LOGOUT" initialState).pendingTimers = [TimerTask.rebuildClient 3000] ∧
    (onDisconnected "LOGOUT" initialState).isReady = false := by
  have h := claim1_disconnect_policy "LOGOUT" initialState
  refine ⟨(h.2.1 rfl).1, ?_, h.1.1⟩
  have := (h.2.1 rfl).2.2.1
  simpa [initialState] using this

/-! ## C3 -/

/-- C3 counterexample: the code has no `recoveryPending` guard.  Two
consecutive `disconnected` events with a transient reason each schedule a 5 s
reinitialize timer, so two recovery timers are pending at once. -/
theorem claim3_counterexample :
    (applyEvents [WAEvent.disconnected "UNPAIRED", WAEvent.disconnected "UNPAIRED"]
        initialState).pendingTimers =
      [TimerTask.reinitSameClient 1 5000, TimerTask.reinitSameClient 1 5000] ∧
    ¬ (applyEvents [WAEvent.disconnected "UNPAIRED", WAEvent.disconnected "UNPAIRED"]
        initialState).pendingTimers.length ≤ 1 := by
  constructor
  · rfl
  · decide

/-- C3 amended: there is no `recoveryPending` flag; every disconnect event with
a transient reason (neither LOGOUT nor NAVIGATION nor CONFLICT) unconditionally
schedules a new recovery timer, so `n` such events leave `n` more timers
pending. -/
theorem claim3_amended (r : String) (n : Nat) (s : SessionState)
    (h1 : r ≠ "LOGOUT") (h2 : r ≠ "NAVIGATION") (h3 : r ≠ "CONFLICT") :
    (applyEvents (List.replicate n (WAEvent.disconnected r)) s).pendingTimers.length
      = s.pendingTimers.length + n := by
  induction n generalizing s with
  | zero => simp [applyEvents]
  | succ k ih =>
      rw [List.replicate_succ, applyEvents_cons]
      have he : applyEvent (WAEvent.disconnected r) s = onDisconnected r s := rfl
      rw [he, ih (onDisconnected r s), onDisconnected_other_eq r s h1 h2 h3]
      simp
      omega

/-- C3 amended witness: two transient disconnects from the initial state leave
two pending timers. -/
theorem claim3_amended_witness :
    (applyEvents (List.replicate 2 (WAEvent.disconnected "UNPAIRED"))
        initialState).pendingTimers.length = initialState.pendingTimers.length + 2 :=
  claim3_amended "UNPAIRED" 2 initialState (by decide) (by decide) (by decide)

/-! ## Truthiness helpers -/

/-- A present non-empty string is truthy. -/
lemma truthy_some_of_ne {s : String} (h : s ≠ "") : truthy (some s) = true := by
  simp [truthy, h]

/-- `truthy` of a present string decides emptiness. -/
lemma truthy_some (s : String) : truthy (some s) = (s != "") := rfl

/-! ## C4 -/

/-- C4 counterexample: after a `qr` event followed by `ready`, the stored QR
payload is NOT cleared — the `ready` handler only sets `isReady`.  The claim's
"the payload is cleared" clause is false at this input (the `/qr` endpoint does
return 204, but only because of the readiness check). -/
theorem claim4_counterexample :
    (applyEvent WAEvent.ready (applyEvent (WAEvent.qr "QR-PAYLOAD-1") initialState)).lastQR
      = some "QR-PAYLOAD-1" ∧
    ¬ (applyEvent WAEvent.ready (applyEvent (WAEvent.qr "QR-PAYLOAD-1") initialState)).lastQR
      = none ∧
    getQr (applyEvent WAEvent.ready (applyEvent (WAEvent.qr "QR-PAYLOAD-1") initialState))
      = HttpResponse.qrNoContent := by
  refine ⟨rfl, by decide, rfl⟩

/-- C4 amended: the `/qr` lifecycle is 404 before any `qr` event, 200 with the
stored payload after a `qr` event and before readiness, and 204 once `ready`
has fired — but the stored payload is retained, not cleared, when `ready`
fires (it is cleared only by a LOGOUT disconnect or a manual restart). -/
theorem claim4_amended (p : String) (hp : p ≠ "") :
    getQr initialState = HttpResponse.qrNotFound ∧
    getQr (applyEvent (WAEvent.qr p) initialState) = HttpResponse.qrJson p ∧
    getQr (applyEvent WAEvent.ready (applyEvent (WAEvent.qr p) initialState))
      = HttpResponse.qrNoContent ∧
    (applyEvent WAEvent.ready (applyEvent (WAEvent.qr p) initialState)).lastQR = some p ∧
    httpStatus HttpResponse.qrNotFound = 404 ∧
    httpStatus (HttpResponse.qrJson p) = 200 ∧
    httpStatus HttpResponse.qrNoContent = 204 := by
  refine ⟨rfl, ?_, rfl, rfl, rfl, rfl, rfl⟩
  simp [getQr, applyEvent, initialState, truthy_some_of_ne hp]

/-- C4 amended witness: the amended lifecycle at a concrete payload. -/
theorem claim4_amended_witness :
    getQr (applyEvent (WAEvent.qr "QR-PAYLOAD-2") initialState)
      = HttpResponse.qrJson "QR-PAYLOAD-2" ∧
    (applyEvent WAEvent.ready (applyEvent (WAEvent.qr "QR-PAYLOAD-2") initialState)).lastQR
      = some "QR-PAYLOAD-2" :=
  ⟨(claim4_amended "QR-PAYLOAD-2" (by decide)).2.1,
   (claim4_amended "QR-PAYLOAD-2" (by decide)).2.2.2.1⟩

/-! ## C5 -/

/-- C5 counterexample: `POST /restart` does not schedule a recreation of the
adapter.  The scheduled task is `client.initialize()` on the current instance:
firing it leaves the adapter generation unchanged (no fresh adapter is
constructed), unlike the LOGOUT path's `rebuildClient` task. -/
theorem claim5_counterexample :
    (postRestart false initialState).1.pendingTimers = [TimerTask.restartReinit 2000] ∧
    (runTask (TimerTask.restartReinit 2000) (postRestart false initialState).1).clientGen
      = (postRestart false initialState).1.clientGen ∧
    (postRestart false initialState).1.clientGen = initialState.clientGen ∧
    (TimerTask.restartReinit 2000 ≠ TimerTask.rebuildClient 2000) := by
  refine ⟨rfl, rfl, rfl, by decide⟩

/-- C5 amended: `POST /restart`, from any state, resets the ready and
authenticated flags and clears `lastQR` (idempotently — the resulting values
do not depend on the prior state), issues the adapter `destroy` call, and on
success schedules a 2 s re-initialization of the current adapter instance (not
a recreation: no fresh adapter is constructed); it returns 500
`restart_failed` exactly when the release step throws, in which case no timer
is scheduled. -/
theorem claim5_amended (b : Bool) (s : SessionState) :
    (postRestart b s).1.isReady = false ∧
    (postRestart b s).1.isAuthenticated = false ∧
    (postRestart b s).1.lastQR = none ∧
    (postRestart b s).2.2 = [AdapterCall.destroy] ∧
    ((postRestart b s).2.1 = HttpResponse.restartFailed ↔ b = true) ∧
    (b = false →
       (postRestart b s).2.1 = HttpResponse.restartOk ∧
       (postRestart b s).1.pendingTimers = s.pendingTimers ++ [TimerTask.restartReinit 2000] ∧
       (postRestart b s).1.clientGen = s.clientGen) ∧
    (b = true → (postRestart b s).1.pendingTimers = s.pendingTimers) ∧
    httpStatus HttpResponse.restartFailed = 500 := by
  cases b <;> simp [postRestart, httpStatus]

/-- C5 amended witness: the restart outcome at the initial state with a
non-throwing release. -/
theorem claim5_amended_witness :
    (postRestart false initialState).2.1 = HttpResponse.restartOk ∧
    (postRestart false initialState).1.lastQR = none ∧
    (postRestart false initialState).1.pendingTimers = [TimerTask.restartReinit 2000] := by
  have h := claim5_amended false initialState
  refine ⟨(h.2.2.2.2.2.1 rfl).1, h.2.2.1, ?_⟩
  have := (h.2.2.2.2.2.1 rfl).2.1
  simpa [initialState] using this

/-! ## C6 -/

/-- C6: while the session is not ready, `POST /send`, `GET /contacts` and
`POST /send-by-name` all answer 503 `client_not_ready` with no adapter call
issued; a `ready` event makes `isReady` true, after which none of the three
handlers can produce the `client_not_ready` rejection. -/
theorem claim6_ready_gate (s : SessionState) (req : SendRequest)
    (qp nm msg : Option String) (cs : List Contact) :
    (s.isReady = false →
       postSend s req = (HttpResponse.clientNotReady, []) ∧
       getContactsRoute s qp cs = (HttpResponse.clientNotReady, []) ∧
       postSendByName s nm msg cs = (HttpResponse.clientNotReady, [])) ∧
    httpStatus HttpResponse.clientNotReady = 503 ∧
    (applyEvent WAEvent.ready s).isReady = true ∧
    (s.isReady = true →
       (postSend s req).1 ≠ HttpResponse.clientNotReady ∧
       (getContactsRoute s qp cs).1 ≠ HttpResponse.clientNotReady ∧
       (postSendByName s nm msg cs).1 ≠ HttpResponse.clientNotReady) := by
  refine ⟨?_, rfl, rfl, ?_⟩
  · intro h
    refine ⟨?_, ?_, ?_⟩ <;> simp [postSend, getContactsRoute, postSendByName, h]
  · intro h
    refine ⟨?_, ?_, ?_⟩
    · simp only [postSend, h]
      split
      · simp_all
      · split
        · simp
        · split <;> simp
    · simp only [getContactsRoute, h]
      simp
    · simp only [postSendByName, h]
      split
      · simp_all
      · split
        · simp
        · split <;> simp

/-- C6 witness: the gate at the fresh (not ready) state, and its absence after
readiness. -/
theorem claim6_ready_gate_witness :
    postSend initialState { number := none, jid := none, message := none }
      = (HttpResponse.clientNotReady, []) ∧
    (postSend readyState { number := none, jid := none, message := none }).1
      ≠ HttpResponse.clientNotReady :=
  ⟨((claim6_ready_gate initialState { number := none, jid := none, message := none }
      none none none []).1 rfl).1,
   ((claim6_ready_gate readyState { number := none, jid := none, message := none }
      none none none []).2.2.2 rfl).1⟩

/-! ## C10 -/

/-- C10: in `POST /send` and `POST /send-by-name` the readiness gate runs
before body validation: while not ready every request — malformed or not —
gets 503 `client_not_ready`, and a 400 validation response implies the session
was ready. -/
theorem claim10_gate_before_validation (s : SessionState) (req : SendRequest)
    (nm msg : Option String) (cs : List Contact) :
    (s.isReady = false →
       postSend s req = (HttpResponse.clientNotReady, []) ∧
       postSendByName s nm msg cs = (HttpResponse.clientNotReady, []) ∧
       httpStatus (postSend s req).1 = 503 ∧
       httpStatus (postSendByName s nm msg cs).1 = 503) ∧
    (httpStatus (postSend s req).1 = 400 → s.isReady = true) ∧
    (httpStatus (postSendByName s nm msg cs).1 = 400 → s.isReady = true) := by
  by_cases h : s.isReady = true
  · refine ⟨fun hf => absurd h (by simp [hf]), fun _ => h, fun _ => h⟩
  · have hf : s.isReady = false := by simpa using h
    have h1 : postSend s req = (HttpResponse.clientNotReady, []) := by simp [postSend, hf]
    have h2 : postSendByName s nm msg cs = (HttpResponse.clientNotReady, []) := by
      simp [postSendByName, hf]
    refine ⟨fun _ => ⟨h1, h2, by rw [h1]; rfl, by rw [h2]; rfl⟩, ?_, ?_⟩
    · intro hst; rw [h1] at hst; simp [httpStatus] at hst
    · intro hst; rw [h2] at hst; simp [httpStatus] at hst

/-- C10 witness: a malformed body (no fields at all) still gets 503 while not
ready. -/
theorem claim10_gate_before_validation_witness :
    postSend initialState { number := none, jid := none, message := none }
      = (HttpResponse.clientNotReady, []) ∧
    postSendByName initialState none none [] = (HttpResponse.clientNotReady, []) :=
  ⟨((claim10_gate_before_validation initialState
      { number := none, jid := none, message := none } none none []).1 rfl).1,
   ((claim10_gate_before_validation initialState
      { number := none, jid := none, message := none } none none []).1 rfl).2.1⟩

/-! ## C7 -/

/-- C7 counterexample: an empty-string `number` also normalizes to an empty
digit string, yet the response is 400 `bad_request` (the empty string is falsy,
so the required-fields check `!message || (!number && !jid)` fires first), not
400 `invalid_number` as the claim states for every input normalizing to empty
digits. -/
theorem claim7_counterexample :
    digitsOnly "" = "" ∧
    postSend readyState { number := some "", jid := none, message := some "hello" }
      = (HttpResponse.badRequestSend, []) ∧
    (HttpResponse.badRequestSend ≠ HttpResponse.invalidNumber (some "")) := by
  refine ⟨rfl, by decide, by decide⟩

/-- C7 amended: for a ready session and a present message, a non-empty number
input is normalized by stripping all non-digit characters and appending
`@c.us`; when the digits are non-empty the message goes to `digits@c.us`, when
the digits are empty the request is rejected with 400 `invalid_number`; the
empty-string number is instead caught by the required-fields truthiness check
and rejected with 400 `bad_request`.  In every rejection no adapter call is
made. -/
theorem claim7_amended (s : SessionState) (x m : String)
    (hready : s.isReady = true) (hm : m ≠ "") :
    (x ≠ "" → digitsOnly x = "" →
       postSend s { number := some x, jid := none, message := some m }
         = (HttpResponse.invalidNumber (some x), [])) ∧
    (x ≠ "" → digitsOnly x ≠ "" →
       postSend s { number := some x, jid := none, message := some m }
         = (HttpResponse.sendOk (digitsOnly x ++ "@c.us"),
            [AdapterCall.sendMessage (digitsOnly x ++ "@c.us") m])) ∧
    postSend s { number := some "", jid := none, message := some m }
      = (HttpResponse.badRequestSend, []) ∧
    httpStatus (HttpResponse.invalidNumber (some x)) = 400 ∧
    httpStatus HttpResponse.badRequestSend = 400 := by
  refine ⟨?_, ?_, ?_, rfl, rfl⟩
  · intro hx hd
    simp [postSend, hready, toWhatsAppId, jsOrO, truthy, hm, hx, hd]
  · intro hx hd
    simp [postSend, hready, toWhatsAppId, jsOrO, truthy, hm, hx, hd]
  · simp [postSend, hready, truthy, hm]

/-- C7 amended witness: the spec's own example number normalizes to
`15551234567@c.us` and the message is dispatched there. -/
theorem claim7_amended_witness :
    postSend readyState { number := some "+1 (555) 123-4567", jid := none, message := some "hi" }
      = (HttpResponse.sendOk "15551234567@c.us",
         [AdapterCall.sendMessage "15551234567@c.us" "hi"]) := by
  have h := (claim7_amended readyState "+1 (555) 123-4567" "hi" rfl (by decide)).2.1
      (by decide) (by decide)
  have e : digitsOnly "+1 (555) 123-4567" = "15551234567" := rfl
  rw [e] at h
  exact h

/-! ## C8 -/

/-- C8: contact resolution is deterministic — in this embedding the resolver
and the full `/send-by-name` handler are pure functions of the query/state and
the contact list, so two runs on the same inputs yield the same outcome, the
same scores and the same chosen target. -/
theorem claim8_deterministic (q : String) (cs : List Contact) :
    resolveByName q cs = resolveByName q cs ∧
    (∀ c : Contact, contactScore q c = contactScore q c) ∧
    (∀ (s : SessionState) (nm msg : Option String),
       postSendByName s nm msg cs = postSendByName s nm msg cs) :=
  ⟨rfl, fun _ => rfl, fun _ _ _ => rfl⟩

/-! ## Scoring helpers -/

/-- Every string contains the empty string. -/
lemma jsIncludes_empty (hay : String) : jsIncludes hay "" = true := by
  show subSearch "".toList hay.toList = true
  have h0 : "".toList = [] := rfl
  rw [h0]
  cases hay.toList with
  | nil => rfl
  | cons b bs => simp [subSearch, subAt]

/-- The counting fold used by the scorer equals the length of the filtered
list. -/
lemma foldl_count_eq (p : String → Bool) :
    ∀ (l : List String) (a : Nat),
      l.foldl (fun acc v => if p v then acc + 1 else acc) a = a + (l.filter p).length := by
  intro l
  induction l with
  | nil => intro a; simp
  | cons x xs ih =>
      intro a
      by_cases hp : p x <;> simp [List.filter_cons, hp, ih] <;> omega

/-- A contact's score is the number of its present scoring fields whose
lowercasing contains the query. -/
lemma contactScore_count (q : String) (c : Contact) :
    contactScore q c =
      ((jsCompact (scoreFields c)).filter (fun v => jsIncludes (jsLower v) q)).length := by
  unfold contactScore
  rw [foldl_count_eq]
  omega

/-- Against the empty query every present field matches, so the score is the
number of present fields. -/
lemma contactScore_empty (c : Contact) :
    contactScore "" c = (jsCompact (scoreFields c)).length := by
  rw [contactScore_count]
  congr 1
  refine List.filter_eq_self.mpr ?_
  intro v _
  exact jsIncludes_empty (jsLower v)

/-- The descending comparator is transitive. -/
lemma candLE_trans (a b c : Cand) (h1 : candLE a b = true) (h2 : candLE b c = true) :
    candLE a c = true := by
  simp only [candLE, decide_eq_true_eq] at *
  omega

/-- The descending comparator is total. -/
lemma candLE_total (a b : Cand) : (candLE a b || candLE b a) = true := by
  simp only [candLE, Bool.or_eq_true, decide_eq_true_eq]
  omega

/-- Stable insertion permutes the extended list. -/
lemma insertDesc_perm (x : Cand) (l : List Cand) : (insertDesc x l).Perm (x :: l) := by
  induction l with
  | nil => exact List.Perm.refl _
  | cons y ys ih =>
      unfold insertDesc
      by_cases hc : candLE x y = true
      · rw [if_pos hc]
      · rw [if_neg hc]
        exact (ih.cons y).trans (List.Perm.swap x y ys)

/-- Membership after stable insertion. -/
lemma mem_insertDesc {z x : Cand} {l : List Cand} :
    z ∈ insertDesc x l ↔ z = x ∨ z ∈ l := by
  have h := (insertDesc_perm x l).mem_iff (a := z)
  simpa using h

/-- Stable insertion preserves the descending sortedness invariant. -/
lemma pairwise_insertDesc {x : Cand} {l : List Cand}
    (h : l.Pairwise (fun a b => candLE a b = true)) :
    (insertDesc x l).Pairwise (fun a b => candLE a b = true) := by
  induction l with
  | nil => simp [insertDesc]
  | cons y ys ih =>
      rw [List.pairwise_cons] at h
      obtain ⟨hy, hys⟩ := h
      unfold insertDesc
      by_cases hc : candLE x y = true
      · rw [if_pos hc]
        refine List.Pairwise.cons ?_ (List.Pairwise.cons hy hys)
        intro z hz
        rcases List.mem_cons.mp hz with rfl | hz'
        · exact hc
        · exact candLE_trans x y z hc (hy z hz')
      · rw [if_neg hc]
        refine List.Pairwise.cons ?_ (ih hys)
        intro z hz
        rcases mem_insertDesc.mp hz with hzx | hz'
        · rw [hzx]
          have htot : candLE x y = true ∨ candLE y x = true := by
            simpa using candLE_total x y
          rcases htot with h1 | h2
          · exact absurd h1 hc
          · exact h2
        · exact hy z hz'

/-- The stable sort sorts by descending score. -/
lemma stableSortDesc_sorted (l : List Cand) :
    (stableSortDesc l).Pairwise (fun a b => candLE a b = true) := by
  induction l with
  | nil => simp [stableSortDesc]
  | cons x xs ih => exact pairwise_insertDesc ih

/-- The stable sort permutes its input. -/
lemma stableSortDesc_perm (l : List Cand) : (stableSortDesc l).Perm l := by
  induction l with
  | nil => exact List.Perm.refl _
  | cons x xs ih => exact (insertDesc_perm x (stableSortDesc xs)).trans (ih.cons x)

/-- The sorted candidate list is a permutation of the unsorted one. -/
lemma sortedCandidates_perm (q : String) (cs : List Contact) :
    (sortedCandidates q cs).Perm (candidatesFor q cs) :=
  stableSortDesc_perm (candidatesFor q cs)

/-- The sorted candidate list is empty iff there are no candidates. -/
lemma sortedCandidates_eq_nil_iff (q : String) (cs : List Contact) :
    sortedCandidates q cs = [] ↔ candidatesFor q cs = [] := by
  constructor
  · intro h
    have hp := sortedCandidates_perm q cs
    rw [h] at hp
    exact hp.symm.eq_nil
  · intro h
    unfold sortedCandidates
    rw [h]
    rfl

/-- A kept, positively scored contact yields a candidate. -/
lemma mem_candidatesFor {q : String} {cs : List Contact} {c : Contact}
    (hc : c ∈ cs) (hkeep : ((c.isMyContact || c.isWAContact) && !c.isGroup) = true)
    (hpos : 0 < contactScore q c) :
    Cand.mk c (contactScore q c) ∈ candidatesFor q cs := by
  unfold candidatesFor
  refine List.mem_filter.mpr ⟨?_, by simpa using hpos⟩
  exact List.mem_map.mpr ⟨c, List.mem_filter.mpr ⟨hc, hkeep⟩, rfl⟩

/-- With at least one candidate the resolver cannot answer `noMatch`. -/
lemma resolveByName_ne_noMatch {q : String} {cs : List Contact}
    (h : candidatesFor q cs ≠ []) :
    resolveByName q cs ≠ ResolveOutcome.noMatch := by
  cases hs : sortedCandidates q cs with
  | nil => exact absurd ((sortedCandidates_eq_nil_iff q cs).mp hs) h
  | cons c0 rest =>
      simp only [resolveByName, hs]
      split
      · simp
      · split <;> simp

/-! ## C9 -/

/-- C9 counterexample: a whitespace-only name trims to the empty query, and the
filtered contact list is non-empty, yet the outcome IS `NoMatch` (404): the
single retained contact has no present scoring field, scores 0, and is
discarded.  This falsifies the claim's clause that a non-empty filtered list
never yields `NoMatch`. -/
theorem claim9_counterexample :
    ([bareContact].filter
        (fun c => (c.isMyContact || c.isWAContact) && !c.isGroup)).length = 1 ∧
    jsTrim "   " = "" ∧
    postSendByName readyState (some "   ") (some "hi") [bareContact]
      = (HttpResponse.noMatch, [AdapterCall.getContacts]) := by
  refine ⟨rfl, rfl, rfl⟩

/-- C9 amended: a whitespace-only name passes validation and trims to the empty
query, which every non-empty field contains, so every retained contact with at
least one present (non-empty) scoring field gets a positive score; whenever the
filtered list holds at least one such contact the outcome is not `NoMatch`
(a retained contact all of whose scoring fields are absent still scores 0, so
an entirely field-less filtered list can yield `NoMatch`). -/
theorem claim9_amended (s : SessionState) (nm m : String) (cs : List Contact) (c : Contact)
    (hready : s.isReady = true) (hnm : nm ≠ "") (htrim : jsTrim nm = "") (hm : m ≠ "")
    (hc : c ∈ cs) (hkeep : ((c.isMyContact || c.isWAContact) && !c.isGroup) = true)
    (hfield : jsCompact (scoreFields c) ≠ []) :
    (∀ hay : String, jsIncludes hay "" = true) ∧
    0 < contactScore "" c ∧
    (postSendByName s (some nm) (some m) cs).1 ≠ HttpResponse.badRequestByName ∧
    (postSendByName s (some nm) (some m) cs).1 ≠ HttpResponse.noMatch := by
  have hq : jsLower (jsTrim nm) = "" := by rw [htrim]; rfl
  have hpos : 0 < contactScore "" c := by
    rw [contactScore_empty]
    exact List.length_pos.mpr hfield
  have hcand : candidatesFor "" cs ≠ [] := by
    intro hnil
    have hm' := mem_candidatesFor hc hkeep hpos
    rw [hnil] at hm'
    cases hm'
  have hres := resolveByName_ne_noMatch hcand
  have hgate : postSendByName s (some nm) (some m) cs =
      (match resolveByName "" cs with
       | ResolveOutcome.noMatch => (HttpResponse.noMatch, [AdapterCall.getContacts])
       | ResolveOutcome.ambiguous l => (HttpResponse.ambiguousChoice l, [AdapterCall.getContacts])
       | ResolveOutcome.invalidContact => (HttpResponse.invalidContact, [AdapterCall.getContacts])
       | ResolveOutcome.sendTo j nmv =>
           (HttpResponse.sendByNameOk j nmv,
            [AdapterCall.getContacts, AdapterCall.sendMessage j m])) := by
    simp [postSendByName, hready, truthy, hnm, hm, hq]
  refine ⟨jsIncludes_empty, hpos, ?_, ?_⟩
  · rw [hgate]
    cases hr : resolveByName "" cs with
    | noMatch => exact absurd hr hres
    | ambiguous l => simp
    | invalidContact => simp
    | sendTo j nmv => simp
  · rw [hgate]
    cases hr : resolveByName "" cs with
    | noMatch => exact absurd hr hres
    | ambiguous l => simp
    | invalidContact => simp
    | sendTo j nmv => simp

/-- C9 amended witness: whitespace name against a contact whose display name is
present — the outcome is a send, not `NoMatch`. -/
theorem claim9_amended_witness :
    0 < contactScore "" johnContact ∧
    (postSendByName readyState (some "   ") (some "hi") [johnContact]).1
      ≠ HttpResponse.noMatch := by
  have h := claim9_amended readyState "   " "hi" [johnContact] johnContact
      rfl (by decide) rfl (by decide) (by decide) (by decide) (by decide)
  exact ⟨h.2.1, h.2.2.2⟩

/-! ## Maximum-score helpers for C2 -/

/-- Every member's score is bounded by the maximum score. -/
lemma le_maxScore_of_mem {x : Cand} {l : List Cand} (h : x ∈ l) :
    x.score ≤ maxScore l := by
  induction l with
  | nil => cases h
  | cons y ys ih =>
      rcases List.mem_cons.mp h with hxy | hmem
      · rw [hxy]; exact le_max_left _ _
      · exact le_trans (ih hmem) (le_max_right _ _)

/-- The maximum score is bounded by any common bound. -/
lemma maxScore_le {l : List Cand} {b : Nat} (h : ∀ y ∈ l, y.score ≤ b) :
    maxScore l ≤ b := by
  induction l with
  | nil => exact Nat.zero_le b
  | cons y ys ih =>
      have h1 : y.score ≤ b := h y (List.mem_cons_self y ys)
      have h2 : maxScore ys ≤ b := ih (fun z hz => h z (List.mem_cons_of_mem y hz))
      exact max_le h1 h2

/-- The head of the sorted candidate list attains the maximum score. -/
lemma sorted_head_score {q : String} {cs : List Contact} {c0 : Cand} {rest : List Cand}
    (h : sortedCandidates q cs = c0 :: rest) :
    c0.score = maxScore (candidatesFor q cs) := by
  have hp := sortedCandidates_perm q cs
  rw [h] at hp
  have hs : (c0 :: rest).Pairwise (fun a b => candLE a b = true) := by
    rw [← h]; exact stableSortDesc_sorted (candidatesFor q cs)
  rw [List.pairwise_cons] at hs
  obtain ⟨hdom, _⟩ := hs
  have hall : ∀ y ∈ candidatesFor q cs, y.score ≤ c0.score := by
    intro y hy
    have hmem : y ∈ c0 :: rest := hp.mem_iff.mpr hy
    rcases List.mem_cons.mp hmem with h1 | h2
    · rw [h1]
    · have := hdom y h2
      simpa [candLE] using this
  have hmem0 : c0 ∈ candidatesFor q cs := hp.mem_iff.mp (List.mem_cons_self c0 rest)
  exact le_antisymm (le_maxScore_of_mem hmem0) (maxScore_le hall)

/-- The code's tied-top list (filtered from the sorted candidates at the head
score) has the same length as the specification's tied-top list (filtered from
the unsorted candidates at the maximum score). -/
lemma filter_top_len {q : String} {cs : List Contact} {c0 : Cand} {rest : List Cand}
    (h : sortedCandidates q cs = c0 :: rest) :
    ((c0 :: rest).filter (fun c => c.score == c0.score)).length =
      ((candidatesFor q cs).filter
        (fun y => y.score == maxScore (candidatesFor q cs))).length := by
  have hmax := sorted_head_score h
  have hp := sortedCandidates_perm q cs
  rw [h] at hp
  have hpred : (fun c : Cand => c.score == c0.score)
      = (fun y : Cand => y.score == maxScore (candidatesFor q cs)) := by
    funext y; rw [hmax]
  rw [hpred]
  exact (hp.filter _).length_eq

/-- Membership characterization of the candidate list: exactly the kept,
positively scored contacts appear. -/
lemma candidatesFor_mem_iff (q : String) (cs : List Contact) (c : Contact) :
    (∃ x, x ∈ candidatesFor q cs ∧ x.contact = c) ↔
      (c ∈ cs ∧ ((c.isMyContact || c.isWAContact) && !c.isGroup) = true ∧
       0 < contactScore q c) := by
  constructor
  · rintro ⟨x, hx, hxc⟩
    unfold candidatesFor at hx
    rw [List.mem_filter] at hx
    obtain ⟨hmap, hscore⟩ := hx
    rw [List.mem_map] at hmap
    obtain ⟨c', hc', hcx⟩ := hmap
    rw [List.mem_filter] at hc'
    have hcc : c' = c := by rw [← hxc, ← hcx]
    rw [← hcx] at hscore
    subst hcc
    exact ⟨hc'.1, hc'.2, by simpa using hscore⟩
  · rintro ⟨hmem, hkeep, hpos⟩
    exact ⟨Cand.mk c (contactScore q c), mem_candidatesFor hmem hkeep hpos, rfl⟩

/-- Every candidate carries exactly the score of its contact. -/
lemma candidatesFor_score (q : String) (cs : List Contact) :
    ∀ x ∈ candidatesFor q cs, x.score = contactScore q x.contact := by
  intro x hx
  unfold candidatesFor at hx
  rw [List.mem_filter] at hx
  obtain ⟨hmap, _⟩ := hx
  rw [List.mem_map] at hmap
  obtain ⟨c', _, hcx⟩ := hmap
  rw [← hcx]

/-- The resolver answers `noMatch` exactly when no candidate survives. -/
lemma resolveByName_noMatch_iff (q : String) (cs : List Contact) :
    resolveByName q cs = ResolveOutcome.noMatch ↔ candidatesFor q cs = [] := by
  cases hs : sortedCandidates q cs with
  | nil =>
      have hnil := (sortedCandidates_eq_nil_iff q cs).mp hs
      simp [resolveByName, hs, hnil]
  | cons c0 rest =>
      constructor
      · intro hres
        exfalso
        simp only [resolveByName, hs] at hres
        split at hres
        · simp at hres
        · split at hres <;> simp at hres
      · intro hnil
        have hres := (sortedCandidates_eq_nil_iff q cs).mpr hnil
        rw [hs] at hres
        exact absurd hres (List.cons_ne_nil _ _)

/-- An ambiguous answer lists at most 10 candidates and implies at least two
candidates tie for the maximum score. -/
lemma resolveByName_ambiguous_spec (q : String) (cs : List Contact) (L : List CandInfo)
    (h : resolveByName q cs = ResolveOutcome.ambiguous L) :
    L.length ≤ 10 ∧
      2 ≤ ((candidatesFor q cs).filter
            (fun y => y.score == maxScore (candidatesFor q cs))).length := by
  cases hs : sortedCandidates q cs with
  | nil =>
      simp only [resolveByName, hs] at h
      exact ResolveOutcome.noConfusion h
  | cons c0 rest =>
      simp only [resolveByName, hs] at h
      by_cases hlen : 1 < ((c0 :: rest).filter (fun c => c.score == c0.score)).length
      · rw [if_pos hlen] at h
        injection h with hL
        constructor
        · rw [← hL, List.length_map, List.length_take]
          exact min_le_left _ _
        · rw [← filter_top_len hs]
          omega
      · rw [if_neg hlen] at h
        split at h <;> simp at h

/-- At least two maximum-score ties force an ambiguous answer. -/
lemma resolveByName_ambiguous_exists (q : String) (cs : List Contact)
    (h : 2 ≤ ((candidatesFor q cs).filter
          (fun y => y.score == maxScore (candidatesFor q cs))).length) :
    ∃ L, resolveByName q cs = ResolveOutcome.ambiguous L := by
  cases hs : sortedCandidates q cs with
  | nil =>
      have hnil := (sortedCandidates_eq_nil_iff q cs).mp hs
      rw [hnil] at h
      simp at h
  | cons c0 rest =>
      have hlen : 1 < ((c0 :: rest).filter (fun c => c.score == c0.score)).length := by
        rw [filter_top_len hs]; omega
      refine ⟨((((c0 :: rest).filter (fun c => c.score == c0.score)).take 10).map
        (fun x => candInfo x.contact)), ?_⟩
      simp only [resolveByName, hs]
      rw [if_pos hlen]

/-- A sole maximum-score candidate with a present serialized id wins: the
resolver dispatches to its protocol address. -/
lemma resolveByName_unique_spec (q : String) (cs : List Contact) (x : Cand) (j : String)
    (hf : (candidatesFor q cs).filter
        (fun y => y.score == maxScore (candidatesFor q cs)) = [x])
    (hj : x.contact.idSerialized = some j) (hne : j ≠ "") :
    resolveByName q cs = ResolveOutcome.sendTo j
      (jsOrO x.contact.name (jsOrO x.contact.pushname (jsOrO x.contact.shortName none))) := by
  cases hs : sortedCandidates q cs with
  | nil =>
      have hnil := (sortedCandidates_eq_nil_iff q cs).mp hs
      rw [hnil] at hf
      simp at hf
  | cons c0 rest =>
      have hmax := sorted_head_score hs
      have hp := sortedCandidates_perm q cs
      rw [hs] at hp
      have hpred : (fun c : Cand => c.score == c0.score)
          = (fun y : Cand => y.score == maxScore (candidatesFor q cs)) := by
        funext y; rw [hmax]
      have htopperm : ((c0 :: rest).filter (fun c => c.score == c0.score)).Perm [x] := by
        have hpf := hp.filter (fun y => y.score == maxScore (candidatesFor q cs))
        rw [hf] at hpf
        rw [hpred]
        exact hpf
      have htop : (c0 :: rest).filter (fun c => c.score == c0.score) = [x] :=
        List.perm_singleton.mp htopperm
      have hc0top : c0 ∈ (c0 :: rest).filter (fun c => c.score == c0.score) := by
        rw [List.mem_filter]
        exact ⟨List.mem_cons_self _ _, by simp⟩
      rw [htop] at hc0top
      have hc0x : c0 = x := by simpa using hc0top
      have hlen : ¬ 1 < ((c0 :: rest).filter (fun c => c.score == c0.score)).length := by
        rw [htop]; simp
      simp only [resolveByName, hs]
      rw [if_neg hlen, hc0x, hj]
      simp [truthy, hne]

/-- A ready session with valid fields forwards a resolved send to the adapter. -/
lemma postSendByName_send (s : SessionState) (nmf msgf : Option String)
    (cs : List Contact) (j : String) (nmv : Option String)
    (hready : s.isReady = true) (hnm : truthy nmf = true) (hmsg : truthy msgf = true)
    (hres : resolveByName (jsLower (jsTrim (nmf.getD ""))) cs
      = ResolveOutcome.sendTo j nmv) :
    postSendByName s nmf msgf cs =
      (HttpResponse.sendByNameOk j nmv,
       [AdapterCall.getContacts, AdapterCall.sendMessage j (msgf.getD "")]) := by
  simp [postSendByName, hready, hnm, hmsg, hres]

/-! ## C2 -/

/-- C2: the resolution of `POST /send-by-name` proceeds exactly as specified:
candidates are the non-group contacts that are personally known or
protocol-verified with a positive score; the score counts the present fields
among displayName, pushName, shortName, rawNumber and the protocol user id
whose lowercasing contains the query; no candidates means `NoMatch` (404); two
or more candidates tying for the maximum score means `Ambiguous` (300) listing
at most 10 tied candidates; a sole top candidate (whose serialized id, always
present per the contact data model, is `j`) gets the message sent to its
protocol address, with a ready session's handler issuing exactly the
`getContacts` and `sendMessage` adapter calls. -/
theorem claim2_resolution (q : String) (cs : List Contact) :
    (∀ c : Contact,
        (∃ x, x ∈ candidatesFor q cs ∧ x.contact = c) ↔
          (c ∈ cs ∧ ((c.isMyContact || c.isWAContact) && !c.isGroup) = true ∧
           0 < contactScore q c)) ∧
    (∀ x ∈ candidatesFor q cs, x.score = contactScore q x.contact) ∧
    (∀ c : Contact, contactScore q c =
        ((jsCompact (scoreFields c)).filter (fun v => jsIncludes (jsLower v) q)).length) ∧
    (resolveByName q cs = ResolveOutcome.noMatch ↔ candidatesFor q cs = []) ∧
    (∀ L, resolveByName q cs = ResolveOutcome.ambiguous L →
        L.length ≤ 10 ∧
        2 ≤ ((candidatesFor q cs).filter
              (fun y => y.score == maxScore (candidatesFor q cs))).length) ∧
    (2 ≤ ((candidatesFor q cs).filter
            (fun y => y.score == maxScore (candidatesFor q cs))).length →
        ∃ L, resolveByName q cs = ResolveOutcome.ambiguous L) ∧
    (∀ (x : Cand) (j : String),
        (candidatesFor q cs).filter
          (fun y => y.score == maxScore (candidatesFor q cs)) = [x] →
        x.contact.idSerialized = some j → j ≠ "" →
        resolveByName q cs = ResolveOutcome.sendTo j
          (jsOrO x.contact.name (jsOrO x.contact.pushname (jsOrO x.contact.shortName none)))) ∧
    (∀ (s : SessionState) (nmf msgf : Option String) (j : String) (nmv : Option String),
        s.isReady = true → truthy nmf = true → truthy msgf = true →
        resolveByName (jsLower (jsTrim (nmf.getD ""))) cs = ResolveOutcome.sendTo j nmv →
        postSendByName s nmf msgf cs =
          (HttpResponse.sendByNameOk j nmv,
           [AdapterCall.getContacts, AdapterCall.sendMessage j (msgf.getD "")])) ∧
    httpStatus HttpResponse.noMatch = 404 ∧
    (∀ L, httpStatus (HttpResponse.ambiguousChoice L) = 300) := by
  refine ⟨candidatesFor_mem_iff q cs, candidatesFor_score q cs, ?_,
    resolveByName_noMatch_iff q cs, resolveByName_ambiguous_spec q cs, ?_, ?_, ?_, rfl, ?_⟩
  · intro c
    exact contactScore_count q c
  · intro h
    exact resolveByName_ambiguous_exists q cs h
  · intro x j hf hj hne
    exact resolveByName_unique_spec q cs x j hf hj hne
  · intro s nmf msgf j nmv hready hnm hmsg hres
    exact postSendByName_send s nmf msgf cs j nmv hready hnm hmsg hres
  · intro L
    rfl

/-- C2 witness: the query `john` against the single contact `John Smith`
resolves uniquely and the ready handler dispatches the message to its
address. -/
theorem claim2_resolution_witness :
    resolveByName "john" [johnContact]
      = ResolveOutcome.sendTo "15550001111@c.us" (some "John Smith") ∧
    postSendByName readyState (some "john") (some "hello") [johnContact]
      = (HttpResponse.sendByNameOk "15550001111@c.us" (some "John Smith"),
         [AdapterCall.getContacts,
          AdapterCall.sendMessage "15550001111@c.us" "hello"]) := by
  have h := claim2_resolution "john" [johnContact]
  have hres : resolveByName "john" [johnContact]
      = ResolveOutcome.sendTo "15550001111@c.us" (some "John Smith") :=
    h.2.2.2.2.2.2.1 (Cand.mk johnContact 1) "15550001111@c.us" rfl rfl (by decide)
  refine ⟨hres, ?_⟩
  exact h.2.2.2.2.2.2.2.1 readyState (some "john") (some "hello")
    "15550001111@c.us" (some "John Smith") rfl (by decide) (by decide) hres
